import Mathlib

/-!
Shallow embedding of the 360-proctor violation/trust-score pipeline.

Sources embedded:
* `backend/app/services/trust_score_service.py` (`TrustScoreService`)
* `backend/app/services/violation_detection_service.py` (`ViolationDetectionService`)
* `backend/app/services/realtime_violation_service.py` (`RealTimeViolationService`)
* `backend/app/ai/proctoring_service.py` (`ProctorService`)

Python floats are modelled as rationals (ℚ), Python ints as ℤ/ℕ, and
`datetime` timestamps as rationals counting seconds; `datetime.utcnow()` is
made an explicit `now` parameter.  `sorted(..., key=timestamp)` is a stable
sort, modelled by right-fold insertion that keeps the original order of
equal keys.

A load-bearing fact of the source: the `AlertSeverity` enum defined in
`db/models/exam.py` — the one both scoring services import — has exactly
the members INFO, WARNING, CRITICAL.  The scoring services nevertheless
reference `AlertSeverity.LOW`, `.MEDIUM` and `.HIGH`; for a
`(str, enum.Enum)` class each such access raises `AttributeError(name)`.
Functions whose bodies evaluate such an access are therefore embedded as
`Except`-valued computations that raise, and `Except.error` propagates
exactly as an uncaught Python exception does.
-/

/-- Violation types, from `ViolationType` in `violation_detection_service.py`
(14 members; all of these members exist). -/
inductive ViolationType
  | FACE_NOT_DETECTED
  | MULTIPLE_FACES
  | LOOKING_AWAY
  | TAB_SWITCH
  | WINDOW_BLUR
  | AUDIO_DETECTED
  | PHONE_DETECTED
  | SUSPICIOUS_MOVEMENT
  | COPY_PASTE
  | RIGHT_CLICK
  | FULLSCREEN_EXIT
  | BOOK_DETECTED
  | LAPTOP_DETECTED
  | UNAUTHORIZED_OBJECT
deriving DecidableEq

/-- The `AlertSeverity` enum from `db/models/exam.py`, the class imported by
`trust_score_service.py` and `violation_detection_service.py`: its only
members are INFO, WARNING and CRITICAL.  The names LOW, MEDIUM and HIGH
that the scoring services reference are NOT members; accessing them raises
`AttributeError("LOW")` etc., which the `Except`-valued embeddings below
make explicit. -/
inductive AlertSeverity
  | INFO
  | WARNING
  | CRITICAL
deriving DecidableEq

/-- Python exceptions arising in the embedded code: `ValueError` (raised
explicitly by the coordinator) and `AttributeError` (raised by accessing a
missing attribute, e.g. an enum member that does not exist or a method a
service class does not define). -/
inductive PyError
  | valueError (msg : String)
  | attributeError (msg : String)
deriving DecidableEq

/-- Message text of an exception (what `str(e)` yields). -/
def PyError.text : PyError → String
  | .valueError m => m
  | .attributeError m => m

/-- A violation event (`ViolationEvent` dataclass): the fields read by the
scoring pipeline.  `timestamp` is in seconds; `confidence` is the detector
confidence; `severity` is a member of the actual enum.  (`session_id`,
`user_id`, `description`, `metadata` are never read by the scoring
computations and are omitted.) -/
structure ViolationEvent where
  violation_type : ViolationType
  severity : AlertSeverity
  confidence : ℚ
  timestamp : ℚ
  trust_score_impact : ℚ
deriving DecidableEq

/-- The engine's per-type weight dict from
`TrustScoreService._load_violation_weights` — this dict IS built (it only
references `ViolationType` members, which all exist) and has exactly 11
entries; BOOK_DETECTED, LAPTOP_DETECTED and UNAUTHORIZED_OBJECT are absent
(modelled by `none`). -/
def violation_weights : ViolationType → Option ℚ
  | .FACE_NOT_DETECTED => some (15/100)
  | .MULTIPLE_FACES => some (25/100)
  | .LOOKING_AWAY => some (10/100)
  | .TAB_SWITCH => some (20/100)
  | .WINDOW_BLUR => some (15/100)
  | .AUDIO_DETECTED => some (12/100)
  | .PHONE_DETECTED => some (30/100)
  | .SUSPICIOUS_MOVEMENT => some (8/100)
  | .COPY_PASTE => some (25/100)
  | .RIGHT_CLICK => some (5/100)
  | .FULLSCREEN_EXIT => some (20/100)
  | .BOOK_DETECTED => none
  | .LAPTOP_DETECTED => none
  | .UNAUTHORIZED_OBJECT => none

/-- Lookup `self.violation_weights.get(violation_type, 0.1)`. -/
def weight_lookup (vt : ViolationType) : ℚ :=
  (violation_weights vt).getD (1/10)

/-- `TrustScoreService._get_severity_multiplier`: its body first evaluates
the dict literal keyed by `AlertSeverity.LOW`, `.MEDIUM`, `.HIGH`,
`.CRITICAL`.  `AlertSeverity.LOW` does not exist, so every call raises
`AttributeError("LOW")` before the `severity` argument is ever
inspected. -/
def get_severity_multiplier (severity : AlertSeverity) : Except PyError ℚ :=
  Except.error (PyError.attributeError "LOW")

/-- The loop of `TrustScoreService._calculate_violation_penalty`: walks the
list in order carrying the per-type occurrence counts (`violation_counts`),
looks up the event's weight, then calls `_get_severity_multiplier` — which
raises on its first event — and would otherwise add
`base_penalty * severity_multiplier * confidence * frequency_penalty`. -/
def violationPenaltyAux : List ViolationEvent → (ViolationType → ℕ) →
    Except PyError ℚ
  | [], _ => Except.ok 0
  | v :: rest, counts =>
      let counts' : ViolationType → ℕ :=
        fun t => if t = v.violation_type then counts t + 1 else counts t
      let base_penalty := weight_lookup v.violation_type
      match get_severity_multiplier v.severity with
      | Except.error e => Except.error e
      | Except.ok m =>
          let frequency_penalty : ℚ :=
            min 2 (1 + ((counts' v.violation_type : ℚ) - 1) * (2/10))
          match violationPenaltyAux rest counts' with
          | Except.error e => Except.error e
          | Except.ok total =>
              Except.ok
                (base_penalty * m * v.confidence * frequency_penalty + total)

/-- `TrustScoreService._calculate_violation_penalty`: sum the per-event
penalties, scale by 100, cap at 80.  Completes only on the empty list
(value `min 80 (0 * 100) = 0`); any nonempty list raises
`AttributeError("LOW")` inside `_get_severity_multiplier` at its first
event. -/
def calculate_violation_penalty (violations : List ViolationEvent) :
    Except PyError ℚ :=
  match violationPenaltyAux violations (fun _ => 0) with
  | Except.error e => Except.error e
  | Except.ok total => Except.ok (min 80 (total * 100))

/-- `TrustScoreService._calculate_consistency_bonus` (reads no severities;
pure). -/
def calculate_consistency_bonus (violations : List ViolationEvent)
    (current_time : ℤ) : ℚ :=
  if violations = [] ∨ current_time < 10 then 0
  else
    let violation_rate : ℚ := (violations.length : ℚ) / ((max 1 current_time : ℤ) : ℚ)
    if violation_rate < 1/10 then 5
    else if violation_rate < 2/10 then 2
    else 0

/-- `TrustScoreService._calculate_time_penalty`: 2 points per violation whose
timestamp is within the last 300 seconds of `now` (`datetime.utcnow()`),
capped at 20 (reads no severities; pure). -/
def calculate_time_penalty (now : ℚ) (violations : List ViolationEvent) : ℚ :=
  if violations = [] then 0
  else
    let recent_violations :=
      violations.filter (fun v => now - v.timestamp < 300)
    min 20 ((recent_violations.length : ℚ) * 2)

/-- Stable insertion of an event into a timestamp-sorted list, placing the
new element before any element of equal timestamp. -/
def insert_by_timestamp (v : ViolationEvent) :
    List ViolationEvent → List ViolationEvent
  | [] => [v]
  | w :: ws =>
      if v.timestamp ≤ w.timestamp then v :: w :: ws
      else w :: insert_by_timestamp v ws

/-- `sorted(violations, key=lambda x: x.timestamp)` — Python sort is stable;
a right fold of stable insertion keeps equal-timestamp events in their
original order. -/
def sorted_by_timestamp (violations : List ViolationEvent) :
    List ViolationEvent :=
  violations.foldr insert_by_timestamp []

/-- The `for i in range(1, len(sorted_violations))` loop counting consecutive
pairs less than 30 seconds apart. -/
def countRapid : List ViolationEvent → ℕ
  | [] => 0
  | [_] => 0
  | a :: b :: rest =>
      (if b.timestamp - a.timestamp < 30 then 1 else 0) + countRapid (b :: rest)

/-- `TrustScoreService._calculate_behavior_pattern_penalty`: returns 0 for
fewer than 3 violations.  For 3 or more it sorts by timestamp, counts
rapid-succession pairs and conditionally adds 10 to `penalty` — and then
evaluates the `severity_values` dict literal keyed by `AlertSeverity.LOW`
etc., which raises `AttributeError("LOW")`; the escalation test and the
`min(15.0, penalty)` return are never reached. -/
def calculate_behavior_pattern_penalty
    (violations : List ViolationEvent) : Except PyError ℚ :=
  if violations.length < 3 then Except.ok 0
  else
    let sorted_violations := sorted_by_timestamp violations
    let rapid_succession_count := countRapid sorted_violations
    let penalty : ℚ := if rapid_succession_count > 2 then 0 + 10 else 0
    Except.error (PyError.attributeError "LOW")

/-- `TrustScoreService._calculate_recovery_bonus` (reads no severities;
pure). -/
def calculate_recovery_bonus (now : ℚ) (violations : List ViolationEvent)
    (current_time : ℤ) : ℚ :=
  if violations = [] ∨ current_time < 20 then 0
  else
    let midpoint : ℚ := (current_time : ℚ) / 2
    let early_violations :=
      violations.filter (fun v => now - v.timestamp > midpoint * 60)
    let recent_violations :=
      violations.filter (fun v => ¬ (now - v.timestamp > midpoint * 60))
    if early_violations.length > recent_violations.length ∧
        early_violations.length > 2 then
      min 10 ((((early_violations.length : ℚ) - (recent_violations.length : ℚ))
          / (early_violations.length : ℚ)) * 10)
    else 0

/-- Trust score categories (`TrustScoreCategory`). -/
inductive TrustScoreCategory
  | EXCELLENT
  | GOOD
  | FAIR
  | POOR
  | CRITICAL
deriving DecidableEq

/-- `TrustScoreService._get_score_category`. -/
def get_score_category (score : ℚ) : TrustScoreCategory :=
  if score ≥ 90 then .EXCELLENT
  else if score ≥ 75 then .GOOD
  else if score ≥ 60 then .FAIR
  else if score ≥ 40 then .POOR
  else .CRITICAL

/-- The factor breakdown (`TrustScoreFactors` dataclass). -/
structure TrustScoreFactors where
  base_score : ℚ
  violation_penalty : ℚ
  consistency_bonus : ℚ
  time_penalty : ℚ
  behavior_pattern_penalty : ℚ
  recovery_bonus : ℚ
deriving DecidableEq

/-- The engine's output record (`TrustScoreResult` dataclass;
`recommendations` is a list of advice strings, `trend` one of
"improving"/"declining"/"stable"). -/
structure TrustScoreResult where
  current_score : ℚ
  category : TrustScoreCategory
  factors : TrustScoreFactors
  violations_count : ℕ
  recommendations : List String
  trend : String
deriving DecidableEq

/-- Occurrences of a violation type in a list (the `violation_counts` dict
built by `_generate_recommendations`). -/
def countType (violations : List ViolationEvent) (t : ViolationType) : ℕ :=
  (violations.filter (fun v => v.violation_type = t)).length

/-- An apostrophe character, used inside one recommendation string. -/
def apos : String := (Char.ofNat 39).toString

/-- `TrustScoreService._generate_recommendations` (reads no severities;
pure). -/
def generate_recommendations (violations : List ViolationEvent)
    (score : ℚ) : List String :=
  (if countType violations .FACE_NOT_DETECTED > 2 then
    ["Ensure proper lighting and camera positioning for face detection"]
  else []) ++
  (if countType violations .LOOKING_AWAY > 3 then
    ["Maintain focus on the screen during the exam"]
  else []) ++
  (if countType violations .TAB_SWITCH > 1 then
    ["Avoid switching browser tabs during the exam"]
  else []) ++
  (if countType violations .AUDIO_DETECTED > 1 then
    ["Ensure a quiet environment during the exam"]
  else []) ++
  (if countType violations .MULTIPLE_FACES > 0 then
    ["Ensure you are alone during the exam"]
  else []) ++
  (if score < 60 then
    ["Review exam guidelines and proctoring requirements",
     "Contact support if you" ++ apos ++ "re experiencing technical issues"]
  else if score < 80 then
    ["Be more mindful of exam guidelines"]
  else [])

/-- `TrustScoreService._calculate_trend`: looks at the last up-to-3 stored
scores (the history as it stands before the current score is appended);
fewer than 2 history entries (including an absent session key) gives
"stable". -/
def calculate_trend (history : List ℚ) : String :=
  if history.length < 2 then "stable"
  else
    let recent_scores := history.drop (history.length - 3)
    let score_changes :=
      (recent_scores.zip recent_scores.tail).map (fun p => p.2 - p.1)
    let avg_change := score_changes.sum / (score_changes.length : ℚ)
    if avg_change > 2 then "improving"
    else if avg_change < -2 then "declining"
    else "stable"

/-- `TrustScoreService._store_score_history`: append the score, then keep
only the last 20 entries (`history[-20:]`). -/
def store_score_history (history : List ℚ) (score : ℚ) : List ℚ :=
  let h := history ++ [score]
  if h.length > 20 then h.drop (h.length - 20) else h

/-- `TrustScoreService.calculate_trust_score`, with `datetime.utcnow()` made
an explicit `now` parameter and the per-session mutable history passed in
and returned.  The method has no `try/except`, so the `AttributeError`
raised by `_calculate_violation_penalty` (for any nonempty violation list,
via `_get_severity_multiplier`) or by `_calculate_behavior_pattern_penalty`
(for 3 or more violations) propagates to the caller, and neither the result
nor the history append ever happens.  Only calls with an empty violation
list complete.  `exam_duration_minutes` is a parameter of the Python method
but is never read by its body. -/
def calculate_trust_score (now : ℚ) (violations : List ViolationEvent)
    (exam_duration_minutes : ℤ) (current_time_minutes : ℤ)
    (history : List ℚ) : Except PyError (TrustScoreResult × List ℚ) :=
  match calculate_violation_penalty violations with
  | Except.error e => Except.error e
  | Except.ok vp =>
    let cb := calculate_consistency_bonus violations current_time_minutes
    let tp := calculate_time_penalty now violations
    match calculate_behavior_pattern_penalty violations with
    | Except.error e => Except.error e
    | Except.ok bp =>
      let rb := calculate_recovery_bonus now violations current_time_minutes
      let factors : TrustScoreFactors :=
        { base_score := 100
          violation_penalty := vp
          consistency_bonus := cb
          time_penalty := tp
          behavior_pattern_penalty := bp
          recovery_bonus := rb }
      let final_score : ℚ :=
        max 0 (min 100
          (factors.base_score
            - factors.violation_penalty
            - factors.time_penalty
            - factors.behavior_pattern_penalty
            + factors.consistency_bonus
            + factors.recovery_bonus))
      Except.ok
        ({ current_score := final_score
           category := get_score_category final_score
           factors := factors
           violations_count := violations.length
           recommendations := generate_recommendations violations final_score
           trend := calculate_trend history },
          store_score_history history final_score)

/-- One evaluation request: the wall clock, the violation list and the two
minute counters passed to `calculate_trust_score`. -/
structure EvalInput where
  now : ℚ
  violations : List ViolationEvent
  exam_duration_minutes : ℤ
  current_time_minutes : ℤ

/-- The score history of one session after a sequence of
`calculate_trust_score` calls, starting from an empty history: a completing
call replaces the history with the one it returns; a call that raises
leaves the stored history untouched (the exception fires before
`_store_score_history`). -/
def run_evaluations (inputs : List EvalInput) : List ℚ :=
  inputs.foldl
    (fun h i =>
      match calculate_trust_score i.now i.violations i.exam_duration_minutes
        i.current_time_minutes h with
      | Except.ok p => p.2
      | Except.error _ => h)
    []

/-- Stated from the claim, for comparison with the code: the 14-entry weight
table asserted by the spec (BOOK_DETECTED 0.15, LAPTOP_DETECTED 0.20,
UNAUTHORIZED_OBJECT 0.10). -/
def claim_weight_table : ViolationType → ℚ
  | .FACE_NOT_DETECTED => 15/100
  | .MULTIPLE_FACES => 25/100
  | .LOOKING_AWAY => 10/100
  | .TAB_SWITCH => 20/100
  | .WINDOW_BLUR => 15/100
  | .AUDIO_DETECTED => 12/100
  | .PHONE_DETECTED => 30/100
  | .SUSPICIOUS_MOVEMENT => 8/100
  | .COPY_PASTE => 25/100
  | .RIGHT_CLICK => 5/100
  | .FULLSCREEN_EXIT => 20/100
  | .BOOK_DETECTED => 15/100
  | .LAPTOP_DETECTED => 20/100
  | .UNAUTHORIZED_OBJECT => 10/100

/-- The weight function the engine's dict actually induces: the 11 dict
entries, and the `.get` default 0.1 for the three types missing from the
dict. -/
def code_weight_table : ViolationType → ℚ
  | .FACE_NOT_DETECTED => 15/100
  | .MULTIPLE_FACES => 25/100
  | .LOOKING_AWAY => 10/100
  | .TAB_SWITCH => 20/100
  | .WINDOW_BLUR => 15/100
  | .AUDIO_DETECTED => 12/100
  | .PHONE_DETECTED => 30/100
  | .SUSPICIOUS_MOVEMENT => 8/100
  | .COPY_PASTE => 25/100
  | .RIGHT_CLICK => 5/100
  | .FULLSCREEN_EXIT => 20/100
  | .BOOK_DETECTED => 1/10
  | .LAPTOP_DETECTED => 1/10
  | .UNAUTHORIZED_OBJECT => 1/10

/-- Stated from the claim: the severityMultiplier table
{LOW:0.5, MEDIUM:1.0, HIGH:1.5, CRITICAL:2.0}, restricted to the enum
members that actually exist; of those only CRITICAL is in the table, and
the source's `.get(severity, 1.0)` default covers INFO and WARNING. -/
def claim_severity_multiplier : AlertSeverity → ℚ
  | .INFO => 1
  | .WARNING => 1
  | .CRITICAL => 2

/-- Declarative form of the i-th summand of the claim's violation-penalty
formula: weight × severityMultiplier × confidence ×
min(2, 1 + 0.2·(occurrences_of_this_type_in_the_first_i+1_events − 1)),
for a given weight table `w`. -/
def spec_penalty_term (w : ViolationType → ℚ) (vs : List ViolationEvent)
    (i : ℕ) : ℚ :=
  match vs[i]? with
  | none => 0
  | some v =>
      w v.violation_type * claim_severity_multiplier v.severity *
        v.confidence *
        min 2 (1 + (((countType (vs.take (i+1)) v.violation_type : ℕ) : ℚ)
          - 1) * (2/10))

/-- Declarative form of the claim's violation penalty:
`min(80, 100 × Σ_i term_i)` for a given weight table. -/
def spec_violation_penalty (w : ViolationType → ℚ)
    (vs : List ViolationEvent) : ℚ :=
  min 80 (100 * ((List.range vs.length).map (spec_penalty_term w vs)).sum)

/-- Consecutive pairs of a list, declaratively (`l.zip l.tail`). -/
def consecutive_pairs (l : List ViolationEvent) :
    List (ViolationEvent × ViolationEvent) :=
  l.zip l.tail

/-- Stated from the claim: the numeric severity order
{LOW:1, MEDIUM:2, HIGH:3, CRITICAL:4}, restricted to the enum members that
actually exist; only CRITICAL is in the table, and the source's
`.get(sev, 0)` default covers INFO and WARNING. -/
def claim_severity_value : AlertSeverity → ℕ
  | .INFO => 0
  | .WARNING => 0
  | .CRITICAL => 4

/-- Stated from the claim, for comparison with the code: the behavior-pattern
penalty the claim asserts — +10 for more than 2 rapid-succession pairs,
+5 when strictly-escalating pairs are more than 50% of the consecutive
pairs, capped at 15, and 0 below 3 violations. -/
def claim_behavior_pattern_penalty (vs : List ViolationEvent) : ℚ :=
  if vs.length < 3 then 0
  else
    let s := sorted_by_timestamp vs
    let rapid :=
      ((consecutive_pairs s).filter
        (fun p => p.2.timestamp - p.1.timestamp < 30)).length
    let esc :=
      ((consecutive_pairs s).filter
        (fun p =>
          claim_severity_value p.1.severity <
            claim_severity_value p.2.severity)).length
    min 15 ((if rapid > 2 then (10:ℚ) else 0) +
      (if (esc : ℚ) > ((consecutive_pairs s).length : ℚ) * (5/10) then 5
       else 0))

/-- Per-session record stored in `RealTimeViolationService.active_sessions`
(the `violations` payload list is opaque to the session-lifecycle claims and
is modelled by its length). -/
structure SessionInfo where
  user_id : ℤ
  exam_id : ℤ
  start_time : ℚ
  violations_count : ℕ
  trust_score : ℚ
  status : String
  end_time : Option ℚ
deriving DecidableEq

/-- The response dict the coordinator returns: its `status` field is
"processed" / "completed" for a normal outcome and "error" (with the caught
exception text in `errorMsg`) for the except-handler outcome. -/
structure RtResponse where
  session_id : String
  status : String
  errorMsg : Option String
deriving DecidableEq

/-- The `active_sessions` dict, as an association list keyed by session id. -/
def Sessions := List (String × SessionInfo)

/-- Dict membership / item lookup on `active_sessions`. -/
def lookupSession (sessions : Sessions) (sid : String) : Option SessionInfo :=
  (List.find? (fun p => p.1 = sid) sessions).map (fun p => p.2)

/-- In-place mutation of one session record (Python dict item assignment). -/
def updateSession (sessions : Sessions) (sid : String)
    (f : SessionInfo → SessionInfo) : Sessions :=
  List.map (fun p => if p.1 = sid then (p.1, f p.2) else p) sessions

/-- Try body of `RealTimeViolationService.process_frame_data`: an unknown
session id raises `ValueError("Session ... not found")`; for a known session
the very next statement calls `self.violation_detector.detect_violations`,
an attribute `ViolationDetectionService` does not define (its detection
entry point is named `process_frame_data`), so Python raises
`AttributeError` before any state is mutated.  Returns the raised exception
or a normal response, with the session store after the body ran. -/
def rt_process_frame_data_try (sessions : Sessions) (sid : String) :
    Except PyError RtResponse × Sessions :=
  match lookupSession sessions sid with
  | none =>
      (Except.error (PyError.valueError ("Session " ++ sid ++ " not found")),
        sessions)
  | some _ =>
      (Except.error (PyError.attributeError
        "ViolationDetectionService object has no attribute detect_violations"),
        sessions)

/-- `RealTimeViolationService.process_frame_data`: the whole body is wrapped
in `try/except Exception`, whose handler returns a `status:"error"` response
dict; the value the caller observes is always a normal return
(`Except.ok`), never a propagated exception. -/
def rt_process_frame_data (sessions : Sessions) (sid : String) :
    Except PyError (RtResponse × Sessions) :=
  match rt_process_frame_data_try sessions sid with
  | (Except.error e, s) =>
      Except.ok
        ({ session_id := sid, status := "error", errorMsg := some e.text }, s)
  | (Except.ok r, s) => Except.ok (r, s)

/-- Try body of `RealTimeViolationService.end_session`: an unknown session id
raises `ValueError("Session ... not found")`; for a known session the body
first mutates the record in place (`status = "completed"`,
`end_time = now`), then calls
`self.trust_score_service.finalize_session_score`, an attribute
`TrustScoreService` does not define, so `AttributeError` is raised after the
mutation persisted and before the record is deleted from
`active_sessions`. -/
def rt_end_session_try (now : ℚ) (sessions : Sessions) (sid : String) :
    Except PyError RtResponse × Sessions :=
  match lookupSession sessions sid with
  | none =>
      (Except.error (PyError.valueError ("Session " ++ sid ++ " not found")),
        sessions)
  | some _ =>
      (Except.error (PyError.attributeError
        "TrustScoreService object has no attribute finalize_session_score"),
        updateSession sessions sid
          (fun i => { i with status := "completed", end_time := some now }))

/-- `RealTimeViolationService.end_session`: try body plus the
`except Exception` handler returning a `status:"error"` response dict; the
caller always observes a normal return. -/
def rt_end_session (now : ℚ) (sessions : Sessions) (sid : String) :
    Except PyError (RtResponse × Sessions) :=
  match rt_end_session_try now sessions sid with
  | (Except.error e, s) =>
      Except.ok
        ({ session_id := sid, status := "error", errorMsg := some e.text }, s)
  | (Except.ok r, s) => Except.ok (r, s)

/-- `ViolationDetectionService._load_violation_thresholds`: the first entry
of its dict literal reads `AlertSeverity.HIGH` (severity of
FACE_NOT_DETECTED), which the imported enum does not define, so the call
raises `AttributeError("HIGH")` and no thresholds table is ever built. -/
def vd_load_violation_thresholds :
    Except PyError (ViolationType → ℚ × AlertSeverity) :=
  Except.error (PyError.attributeError "HIGH")

/-- `ViolationDetectionService.__init__` evaluates
`self.violation_thresholds = self._load_violation_thresholds()`, so
constructing the classifier raises; the module-level singleton
`violation_detection_service = ViolationDetectionService()` makes even
loading the module `violation_detection_service.py` raise. -/
def vd_service_init : Except PyError Unit :=
  match vd_load_violation_thresholds with
  | Except.error e => Except.error e
  | Except.ok _ => Except.ok ()

/-- `AlertType` from `db/models/exam.py` (used by `ProctorService`). -/
inductive DbAlertType
  | FACE_NOT_DETECTED
  | MULTIPLE_FACES
  | LOOKING_AWAY
  | AUDIO_DETECTED
  | TAB_SWITCH
  | PHONE_DETECTED
  | OTHER
deriving DecidableEq

/-- `AlertSeverity` from `db/models/exam.py` as used by `ProctorService`
(INFO/WARNING/CRITICAL — `ProctorService` references only WARNING and
CRITICAL, members that exist). -/
inductive DbAlertSeverity
  | INFO
  | WARNING
  | CRITICAL
deriving DecidableEq

/-- An alert dict built by `ProctorService.process_frame`. -/
structure PAlert where
  alert_type : DbAlertType
  severity : DbAlertSeverity
  description : String
  trust_score_impact : ℚ
deriving DecidableEq

/-- Exam feature flags read from `session.exam` by `ProctorService`. -/
structure ExamFlags where
  enable_face_detection : Bool
  enable_multiple_face_detection : Bool
  enable_eye_tracking : Bool
  enable_tab_switch_detection : Bool
  enable_audio_detection : Bool
deriving DecidableEq

/-- The looked-up exam session row: completion flag plus exam flags. -/
structure SessionRow where
  is_completed : Bool
  flags : ExamFlags
deriving DecidableEq

/-- `ProctorService._detect_faces`, abstracting the Haar-cascade output to
the list of detected faces (each face represented by the number of eyes the
eye cascade later finds in it): 0 faces → FACE_NOT_DETECTED alert (impact
0.1) when face detection is enabled; more than 1 → MULTIPLE_FACES alert
(impact 0.2) when multiple-face detection is enabled. -/
def ps_detect_faces (faces : List ℕ) (flags : ExamFlags) : List PAlert :=
  if faces.length = 0 ∧ flags.enable_face_detection then
    [{ alert_type := .FACE_NOT_DETECTED, severity := .WARNING,
       description := "No face detected", trust_score_impact := 1/10 }]
  else if faces.length > 1 ∧ flags.enable_multiple_face_detection then
    [{ alert_type := .MULTIPLE_FACES, severity := .CRITICAL,
       description := toString faces.length ++ " faces detected",
       trust_score_impact := 2/10 }]
  else []

/-- `ProctorService._track_eyes`: one LOOKING_AWAY alert (impact 0.05) per
face in which the eye cascade finds fewer than 2 eyes. -/
def ps_track_eyes (faces : List ℕ) : List PAlert :=
  (faces.filter (fun eyes => eyes < 2)).map (fun _ =>
    { alert_type := .LOOKING_AWAY, severity := .WARNING,
      description := "Looking away from screen",
      trust_score_impact := 5/100 })

/-- The normal (non-error) result of `ProctorService.process_frame`. -/
structure PFrameResult where
  session_id : ℤ
  trust_score : ℚ
  alerts : List PAlert
deriving DecidableEq

/-- `ProctorService.process_frame`, with the session lookup, the cascade
outputs and the audio-simulation coin flip made explicit inputs: `session`
is the DB lookup result, `frame` is `none` when no frame data was sent and
otherwise carries the detected faces, `audio` is the presence of audio data,
`audio_sim` the result of `_simulate_audio_detection()`.  Returns `none`
for the `{"error": "Invalid or completed session"}` early return, and
otherwise the response dict: `trust_score` starts at 1.0, has each emitted
alert's `trust_score_impact` subtracted, and is clamped by
`max(0, min(1, trust_score))` before being returned. -/
def ps_process_frame (session : Option SessionRow) (session_id : ℤ)
    (frame : Option (List ℕ)) (audio : Bool) (tab_active : Bool)
    (audio_sim : Bool) : Option PFrameResult :=
  match session with
  | none => none
  | some s =>
    if s.is_completed then none
    else
      let face_alerts : List PAlert :=
        match frame with
        | none => []
        | some faces => ps_detect_faces faces s.flags
      let eye_alerts : List PAlert :=
        match frame with
        | none => []
        | some faces =>
            if faces ≠ [] ∧ s.flags.enable_eye_tracking then
              ps_track_eyes faces
            else []
      let tab_alerts : List PAlert :=
        if ¬ tab_active ∧ s.flags.enable_tab_switch_detection then
          [{ alert_type := .TAB_SWITCH, severity := .WARNING,
             description := "Tab switching detected",
             trust_score_impact := 5/100 }]
        else []
      let audio_alerts : List PAlert :=
        if audio ∧ s.flags.enable_audio_detection ∧ audio_sim then
          [{ alert_type := .AUDIO_DETECTED, severity := .WARNING,
             description := "Voice detected",
             trust_score_impact := 3/100 }]
        else []
      let trust_score : ℚ :=
        1 - (face_alerts.map PAlert.trust_score_impact).sum
          - (eye_alerts.map PAlert.trust_score_impact).sum
          - (tab_alerts.map PAlert.trust_score_impact).sum
          - (audio_alerts.map PAlert.trust_score_impact).sum
      some
        { session_id := session_id
          trust_score := max 0 (min 1 trust_score)
          alerts := face_alerts ++ eye_alerts ++ tab_alerts ++ audio_alerts }

/-- A sample violation event: TAB_SWITCH, WARNING severity, confidence 1,
timestamp 1000 s, engine weight 0.20. -/
def sampleEvent : ViolationEvent :=
  { violation_type := .TAB_SWITCH, severity := .WARNING, confidence := 1,
    timestamp := 1000, trust_score_impact := 20/100 }

/-- A BOOK_DETECTED event at CRITICAL severity and confidence 1 — a type the
engine's weight dict does not contain, at the one claimed-table severity
that exists as an enum member. -/
def c2_event : ViolationEvent :=
  { violation_type := .BOOK_DETECTED, severity := .CRITICAL, confidence := 1,
    timestamp := 0, trust_score_impact := 15/100 }

/-- Four CRITICAL violations 100 s apart: at least 3 violations, no
rapid-succession pairs, no strictly escalating pairs. -/
def c3_events : List ViolationEvent :=
  [{ violation_type := .TAB_SWITCH, severity := .CRITICAL, confidence := 1,
     timestamp := 0, trust_score_impact := 20/100 },
   { violation_type := .TAB_SWITCH, severity := .CRITICAL, confidence := 1,
     timestamp := 100, trust_score_impact := 20/100 },
   { violation_type := .TAB_SWITCH, severity := .CRITICAL, confidence := 1,
     timestamp := 200, trust_score_impact := 20/100 },
   { violation_type := .TAB_SWITCH, severity := .CRITICAL, confidence := 1,
     timestamp := 300, trust_score_impact := 20/100 }]

/-- An evaluation request with an empty violation list (the only kind of
call `calculate_trust_score` can complete): minute 30 of a 60-minute exam,
wall clock 1000 s. -/
def empty_eval_input : EvalInput :=
  { now := 1000, violations := [], exam_duration_minutes := 60,
    current_time_minutes := 30 }

/-- Exam row with every proctoring feature enabled, not completed. -/
def c10_row : SessionRow :=
  { is_completed := false
    flags :=
      { enable_face_detection := true, enable_multiple_face_detection := true,
        enable_eye_tracking := true, enable_tab_switch_detection := true,
        enable_audio_detection := true } }

/-- The response `ProctorService.process_frame` produces for `c10_row` with
one face with 0 detected eyes, an inactive tab, and detected audio:
alerts LOOKING_AWAY (0.05) + TAB_SWITCH (0.05) + AUDIO_DETECTED (0.03),
trust score 1 − 0.13 = 0.87. -/
def c10_result : PFrameResult :=
  { session_id := 1
    trust_score := 87/100
    alerts :=
      [{ alert_type := .LOOKING_AWAY, severity := .WARNING,
         description := "Looking away from screen",
         trust_score_impact := 5/100 },
       { alert_type := .TAB_SWITCH, severity := .WARNING,
         description := "Tab switching detected",
         trust_score_impact := 5/100 },
       { alert_type := .AUDIO_DETECTED, severity := .WARNING,
         description := "Voice detected",
         trust_score_impact := 3/100 }] }

/-- An active-session record (as `start_session` creates it). -/
def c4_activeInfo : SessionInfo :=
  { user_id := 7, exam_id := 3, start_time := 0, violations_count := 0,
    trust_score := 1, status := "active", end_time := none }

/-- The violation penalty completes on the empty list with value 0. -/
theorem calculate_violation_penalty_nil :
    calculate_violation_penalty [] = Except.ok 0 := by
  norm_num [calculate_violation_penalty, violationPenaltyAux]

/-- The violation penalty raises `AttributeError("LOW")` on any nonempty
list: the first loop iteration calls `_get_severity_multiplier`. -/
theorem calculate_violation_penalty_cons (v : ViolationEvent)
    (vs : List ViolationEvent) :
    calculate_violation_penalty (v :: vs) =
      Except.error (PyError.attributeError "LOW") := rfl

/-- The behavior-pattern penalty raises `AttributeError("LOW")` for three or
more violations (at the `severity_values` dict literal). -/
theorem calculate_behavior_pattern_penalty_ge3 (vs : List ViolationEvent)
    (h : ¬ vs.length < 3) :
    calculate_behavior_pattern_penalty vs =
      Except.error (PyError.attributeError "LOW") := by
  unfold calculate_behavior_pattern_penalty
  rw [if_neg h]

/-- A call with an empty violation list completes: every factor is 0, the
score is 100, the category EXCELLENT, no recommendations, and 100 is
appended to the history. -/
theorem calculate_trust_score_nil (now : ℚ) (dur t : ℤ) (h : List ℚ) :
    calculate_trust_score now [] dur t h =
      Except.ok
        ({ current_score := 100, category := .EXCELLENT,
           factors :=
             { base_score := 100, violation_penalty := 0,
               consistency_bonus := 0, time_penalty := 0,
               behavior_pattern_penalty := 0, recovery_bonus := 0 },
           violations_count := 0, recommendations := [],
           trend := calculate_trend h },
          store_score_history h 100) := by
  norm_num [calculate_trust_score, calculate_violation_penalty,
    violationPenaltyAux, calculate_consistency_bonus, calculate_time_penalty,
    calculate_behavior_pattern_penalty, calculate_recovery_bonus,
    generate_recommendations, countType, get_score_category, min_def, max_def]

/-- A call with a nonempty violation list raises `AttributeError("LOW")`
(propagated — `calculate_trust_score` has no `try/except`). -/
theorem calculate_trust_score_cons (now : ℚ) (v : ViolationEvent)
    (vs : List ViolationEvent) (dur t : ℤ) (h : List ℚ) :
    calculate_trust_score now (v :: vs) dur t h =
      Except.error (PyError.attributeError "LOW") := rfl

/-- C1 (code bug): the claimed bound holds only on calls the program can
complete.  A call with an empty violation list returns current_score 100 —
the clamp of 100 − 0 − 0 − 0 + 0 + 0, inside [0, 100] — but every call
with a nonempty violation list raises AttributeError("LOW") inside
_get_severity_multiplier (AlertSeverity.LOW is not a member of the
enum of db/models/exam.py) and returns no score at all, contrary to
the claim's "whatever the violation list". -/
theorem C1_enum_bug_score_paths (now : ℚ) (dur t : ℤ) (h : List ℚ)
    (v : ViolationEvent) (vs : List ViolationEvent) :
    Except.map (fun p => p.1.current_score)
        (calculate_trust_score now [] dur t h) = Except.ok 100 ∧
    (0:ℚ) ≤ 100 ∧ (100:ℚ) ≤ 100 ∧
    (100:ℚ) = max 0 (min 100 (100 - 0 - 0 - 0 + 0 + 0)) ∧
    calculate_trust_score now (v :: vs) dur t h =
      Except.error (PyError.attributeError "LOW") := by
  refine ⟨?_, by norm_num, by norm_num, by norm_num,
    calculate_trust_score_cons now v vs dur t h⟩
  rw [calculate_trust_score_nil]
  rfl

/-- C7 (code bug): the penalty the claim compares is never computed — the
program completes `_calculate_violation_penalty` only on the empty list
(value 0); for the list with one event appended (nonempty) it raises
AttributeError("LOW") via `_get_severity_multiplier`, so no monotonicity
comparison can be observed. -/
theorem C7_append_raises (vs : List ViolationEvent) (v : ViolationEvent) :
    calculate_violation_penalty [] = Except.ok 0 ∧
    calculate_violation_penalty (vs ++ [v]) =
      Except.error (PyError.attributeError "LOW") := by
  refine ⟨calculate_violation_penalty_nil, ?_⟩
  cases vs with
  | nil => exact calculate_violation_penalty_cons v []
  | cons w rest => exact calculate_violation_penalty_cons w (rest ++ [v])

/-- C8: evaluating twice with the identical violation list, exam duration
and current_time_minutes yields the identical score outcome, whatever the
stored history (the excluded side effect) and even whatever the wall
clock: an empty list always completes with score 100, and a nonempty list
always raises the identical AttributeError("LOW") before any
wall-clock-dependent computation runs. -/
theorem C8_deterministic_outcome (now₁ now₂ : ℚ) (vs : List ViolationEvent)
    (dur t : ℤ) (h₁ h₂ : List ℚ) :
    Except.map (fun p => p.1.current_score)
        (calculate_trust_score now₁ vs dur t h₁) =
      Except.map (fun p => p.1.current_score)
        (calculate_trust_score now₂ vs dur t h₂) := by
  cases vs with
  | nil =>
      rw [calculate_trust_score_nil, calculate_trust_score_nil]
      rfl
  | cons v rest =>
      rw [calculate_trust_score_cons, calculate_trust_score_cons]

/-- C2 (counterexample): a single BOOK_DETECTED violation at CRITICAL
severity and confidence 1: the claim's formula (weight 0.15, multiplier 2)
demands penalty 30, but the engine computes nothing at all — it raises
AttributeError("LOW") inside _get_severity_multiplier before any per-event
product is formed. -/
theorem C2_counterexample_book_raises :
    calculate_violation_penalty [c2_event] =
      Except.error (PyError.attributeError "LOW") ∧
    spec_violation_penalty claim_weight_table [c2_event] = 30 ∧
    calculate_violation_penalty [c2_event] ≠
      Except.ok (spec_violation_penalty claim_weight_table [c2_event]) := by
  have h1 : calculate_violation_penalty [c2_event] =
      Except.error (PyError.attributeError "LOW") :=
    calculate_violation_penalty_cons c2_event []
  refine ⟨h1, ?_, by rw [h1]; simp⟩
  norm_num [spec_violation_penalty, spec_penalty_term, claim_weight_table,
    claim_severity_multiplier, countType, c2_event, List.range_succ, min_def,
    List.filter]

/-- C2 (amended): the engine's weight dict carries exactly the 11 claimed
entries, and the `.get` default 0.1 stands in for BOOK_DETECTED,
LAPTOP_DETECTED and UNAUTHORIZED_OBJECT; the violation penalty itself is
computed only for the empty violation list, where it equals the claim's
formula value min(80, 100 × Σ) = 0 over the empty sum; every nonempty list
raises AttributeError("LOW") inside _get_severity_multiplier before any
per-event term is formed. -/
theorem C2_amended_penalty_paths (v : ViolationEvent)
    (vs : List ViolationEvent) :
    calculate_violation_penalty [] =
      Except.ok (spec_violation_penalty code_weight_table []) ∧
    calculate_violation_penalty (v :: vs) =
      Except.error (PyError.attributeError "LOW") ∧
    weight_lookup = code_weight_table := by
  refine ⟨?_, calculate_violation_penalty_cons v vs, ?_⟩
  · rw [calculate_violation_penalty_nil]
    norm_num [spec_violation_penalty]
  · funext tp
    cases tp <;> rfl

/-- C3 (counterexample): four CRITICAL violations 100 s apart: the claim's
formula yields penalty 0 (no rapid-succession pairs, no escalating pairs),
but the code returns no penalty at all — with ≥3 violations it raises
AttributeError("LOW") at the severity_values dict literal. -/
theorem C3_counterexample_pattern_raises :
    calculate_behavior_pattern_penalty c3_events =
      Except.error (PyError.attributeError "LOW") ∧
    claim_behavior_pattern_penalty c3_events = 0 ∧
    calculate_behavior_pattern_penalty c3_events ≠
      Except.ok (claim_behavior_pattern_penalty c3_events) := by
  have h1 : calculate_behavior_pattern_penalty c3_events =
      Except.error (PyError.attributeError "LOW") :=
    calculate_behavior_pattern_penalty_ge3 c3_events (by simp [c3_events])
  refine ⟨h1, ?_, by rw [h1]; simp⟩
  norm_num [claim_behavior_pattern_penalty, c3_events, sorted_by_timestamp,
    insert_by_timestamp, consecutive_pairs, claim_severity_value, min_def,
    List.filter]

/-- C3 (amended): for fewer than 3 violations the behavior-pattern penalty
is 0; for 3 or more, the computation sorts the list and counts
rapid-succession pairs but then raises AttributeError("LOW") at the
severity_values dict literal (AlertSeverity.LOW is not an enum member), so
neither the escalation test nor the min(15, ·) cap is reached and no
penalty is returned. -/
theorem C3_amended_pattern_paths (vs : List ViolationEvent) :
    (vs.length < 3 → calculate_behavior_pattern_penalty vs = Except.ok 0) ∧
    (¬ vs.length < 3 → calculate_behavior_pattern_penalty vs =
      Except.error (PyError.attributeError "LOW")) := by
  constructor
  · intro h
    unfold calculate_behavior_pattern_penalty
    rw [if_pos h]
  · exact calculate_behavior_pattern_penalty_ge3 vs

/-- C3 (witness): the empty list (fewer than 3 violations) yields penalty 0;
the four-violation list raises. -/
theorem C3_amended_witness :
    calculate_behavior_pattern_penalty [] = Except.ok 0 ∧
    calculate_behavior_pattern_penalty c3_events =
      Except.error (PyError.attributeError "LOW") :=
  ⟨(C3_amended_pattern_paths []).1 (by norm_num),
    (C3_amended_pattern_paths c3_events).2 (by simp [c3_events])⟩

/-- C5 (code bug): the classifier can never be constructed —
`_load_violation_thresholds` raises AttributeError("HIGH") at the severity
of its first entry, so `ViolationDetectionService.__init__` raises (and the
module-level singleton makes the module unimportable); no violation of any
type, let alone one carrying the claimed HIGH/CRITICAL severities, is ever
emitted. -/
theorem C5_classifier_never_constructed :
    vd_load_violation_thresholds =
      Except.error (PyError.attributeError "HIGH") ∧
    vd_service_init = Except.error (PyError.attributeError "HIGH") :=
  ⟨rfl, rfl⟩

/-- Appending 100 to a history of min(m,20) copies of 100 keeps exactly
min(m+1, 20) copies of 100. -/
theorem store_score_history_replicate (m : ℕ) :
    store_score_history (List.replicate (min m 20) (100:ℚ)) 100 =
      List.replicate (min (m + 1) 20) 100 := by
  simp only [store_score_history]
  rw [← List.replicate_succ']
  simp only [List.length_replicate]
  by_cases hm : m < 20
  · rw [if_neg (by omega)]
    congr 1
    omega
  · rw [if_pos (by omega), List.drop_replicate]
    congr 1
    omega

/-- Folding evaluations from a min(m,20)-copies history: every completing
input (empty violation list) appends a 100, every raising input leaves the
history unchanged. -/
theorem run_evaluations_fold (inputs : List EvalInput) : ∀ (m : ℕ),
    List.foldl
      (fun h i =>
        match calculate_trust_score i.now i.violations i.exam_duration_minutes
          i.current_time_minutes h with
        | Except.ok p => p.2
        | Except.error _ => h)
      (List.replicate (min m 20) (100:ℚ)) inputs =
    List.replicate
      (min (m + (inputs.filter (fun i => i.violations = [])).length) 20)
      100 := by
  induction inputs with
  | nil => intro m; simp
  | cons i rest ih =>
      intro m
      simp only [List.foldl_cons]
      by_cases hv : i.violations = []
      · have hstep :
            (match calculate_trust_score i.now i.violations
                i.exam_duration_minutes i.current_time_minutes
                (List.replicate (min m 20) (100:ℚ)) with
              | Except.ok p => p.2
              | Except.error _ => List.replicate (min m 20) (100:ℚ)) =
              List.replicate (min (m + 1) 20) 100 := by
          rw [hv, calculate_trust_score_nil]
          exact store_score_history_replicate m
        rw [hstep, ih (m + 1)]
        simp only [List.filter_cons, hv]
        simp only [decide_eq_true_eq, if_pos]
        congr 1
        simp only [List.length_cons]
        omega
      · obtain ⟨v, vs', hvl⟩ := List.exists_cons_of_ne_nil hv
        have hstep :
            (match calculate_trust_score i.now i.violations
                i.exam_duration_minutes i.current_time_minutes
                (List.replicate (min m 20) (100:ℚ)) with
              | Except.ok p => p.2
              | Except.error _ => List.replicate (min m 20) (100:ℚ)) =
              List.replicate (min m 20) (100:ℚ) := by
          rw [hvl, calculate_trust_score_cons]
        rw [hstep, ih m]
        simp [List.filter_cons, hv]

/-- C6: across any sequence of evaluate calls the stored history is exactly
min(k, 20) copies of 100, where k counts the calls that complete (those
with an empty violation list; each appends exactly one final score, 100,
while a raising call appends nothing) — so the history never exceeds 20
entries, the oldest being evicted on overflow, and after 25 completing
calls its length is exactly 20. -/
theorem C6_history_bounded (inputs : List EvalInput) :
    run_evaluations inputs =
      List.replicate
        (min ((inputs.filter (fun i => i.violations = [])).length) 20) 100 ∧
    (run_evaluations inputs).length ≤ 20 ∧
    (run_evaluations (List.replicate 25 empty_eval_input)).length = 20 := by
  have hmain : ∀ ins : List EvalInput, run_evaluations ins =
      List.replicate
        (min ((ins.filter (fun i => i.violations = [])).length) 20) 100 := by
    intro ins
    have h := run_evaluations_fold ins 0
    simpa [run_evaluations] using h
  refine ⟨hmain inputs, ?_, ?_⟩
  · rw [hmain inputs]
    simp only [List.length_replicate]
    omega
  · rw [hmain (List.replicate 25 empty_eval_input)]
    rw [List.filter_replicate]
    simp [empty_eval_input]

/-- C9 (counterexample): for the empty violation list at
`current_time_minutes = 10` the code returns a consistency bonus of 0, not
the 5 the claim derives from the rate 0 < 0.1 (the guard
`if not violations or current_time < 10` returns 0 for an empty list). -/
theorem C9_counterexample_empty_list :
    calculate_consistency_bonus [] 10 ≠ 5 := by
  norm_num [calculate_consistency_bonus]

/-- C9 (amended): for a NONEMPTY violation list with current time ≥ 10 the
consistency bonus is 5 / 2 / 0 according to whether
`len(violations)/max(1, current_time)` is < 0.1 / < 0.2 / neither; for an
empty list, or current time < 10, it is 0. -/
theorem C9_amended_rate_bonus (vs : List ViolationEvent) (t : ℤ) :
    (vs = [] ∨ t < 10 → calculate_consistency_bonus vs t = 0) ∧
    (vs ≠ [] → 10 ≤ t →
      ((vs.length : ℚ) / ((max 1 t : ℤ) : ℚ) < 1/10 →
        calculate_consistency_bonus vs t = 5) ∧
      (¬ (vs.length : ℚ) / ((max 1 t : ℤ) : ℚ) < 1/10 →
        (vs.length : ℚ) / ((max 1 t : ℤ) : ℚ) < 2/10 →
        calculate_consistency_bonus vs t = 2) ∧
      (¬ (vs.length : ℚ) / ((max 1 t : ℤ) : ℚ) < 2/10 →
        calculate_consistency_bonus vs t = 0)) := by
  unfold calculate_consistency_bonus
  constructor
  · intro h
    rw [if_pos h]
  · intro hne ht
    have hcond : ¬ (vs = [] ∨ t < 10) := by
      push_neg
      exact ⟨hne, by omega⟩
    rw [if_neg hcond]
    refine ⟨fun h1 => ?_, fun h1 h2 => ?_, fun h2 => ?_⟩
    · rw [if_pos h1]
    · rw [if_neg h1, if_pos h2]
    · have h1 : ¬ (vs.length : ℚ) / ((max 1 t : ℤ) : ℚ) < 1/10 := by
        intro hlt
        exact h2 (lt_trans hlt (by norm_num))
      rw [if_neg h1, if_neg h2]

/-- C9 (witness): one TAB_SWITCH violation at minute 20: the rate 1/20 is
below 0.1, so the bonus is 5. -/
theorem C9_amended_witness :
    calculate_consistency_bonus [sampleEvent] 20 = 5 :=
  ((C9_amended_rate_bonus [sampleEvent] 20).2 (by simp) (by norm_num)).1
    (by norm_num)

/-- C4 (counterexample): processing or ending an unknown session does NOT
raise an exception to the caller: the try body's `ValueError` is caught by
the method's own `except Exception` handler and the caller receives a
normal return — a response dict with `status = "error"` — so the claim that
a `SessionStateError`/`UnknownSessionError` propagates to the caller is
false (no such exception classes exist in the codebase). -/
theorem C4_counterexample_caught :
    rt_process_frame_data [] "s1" =
      Except.ok
        ({ session_id := "s1", status := "error",
           errorMsg := some ("Session " ++ "s1" ++ " not found") }, []) ∧
    rt_end_session 0 [] "s1" =
      Except.ok
        ({ session_id := "s1", status := "error",
           errorMsg := some ("Session " ++ "s1" ++ " not found") }, []) ∧
    (rt_process_frame_data [] "s1").isOk = true ∧
    (rt_end_session 0 [] "s1").isOk = true := by
  refine ⟨rfl, rfl, rfl, rfl⟩

/-- C4 (amended): `process_frame_data`/`end_session` on an unknown session
id never complete normally and never propagate an exception: the internal
`ValueError("Session ... not found")` is caught and a `status:"error"`
response is returned, the session store unchanged.  On a session id that IS
present — in particular one whose `end_session` attempt already marked it
"completed" — both calls likewise return `status:"error"` responses (their
bodies fail on attributes the sub-services do not define), `end_session`
(re)marking the record completed but never deleting it. -/
theorem C4_amended_error_status (now : ℚ) (sessions : Sessions)
    (sid : String) :
    (lookupSession sessions sid = none →
      rt_process_frame_data sessions sid =
        Except.ok
          ({ session_id := sid, status := "error",
             errorMsg := some ("Session " ++ sid ++ " not found") },
            sessions) ∧
      rt_end_session now sessions sid =
        Except.ok
          ({ session_id := sid, status := "error",
             errorMsg := some ("Session " ++ sid ++ " not found") },
            sessions)) ∧
    (∀ info, lookupSession sessions sid = some info →
      rt_process_frame_data sessions sid =
        Except.ok
          ({ session_id := sid, status := "error",
             errorMsg := some
               "ViolationDetectionService object has no attribute detect_violations" },
            sessions) ∧
      rt_end_session now sessions sid =
        Except.ok
          ({ session_id := sid, status := "error",
             errorMsg := some
               "TrustScoreService object has no attribute finalize_session_score" },
            updateSession sessions sid (fun i =>
              { i with status := "completed", end_time := some now }))) ∧
    (rt_process_frame_data sessions sid).isOk = true ∧
    (rt_end_session now sessions sid).isOk = true := by
  cases h : lookupSession sessions sid with
  | none =>
      refine ⟨fun _ => ⟨?_, ?_⟩, fun info hinfo => ?_, ?_, ?_⟩ <;>
        simp [rt_process_frame_data, rt_process_frame_data_try,
          rt_end_session, rt_end_session_try, PyError.text, Except.isOk,
          Except.toBool, h] at *
  | some info =>
      refine ⟨fun hnone => ?_, fun i hinfo => ⟨?_, ?_⟩, ?_, ?_⟩ <;>
        simp [rt_process_frame_data, rt_process_frame_data_try,
          rt_end_session, rt_end_session_try, PyError.text, Except.isOk,
          Except.toBool, h] at *

/-- C4 (witness): the unknown-session branch at the empty session store, and
the already-completed-session branch: ending "s1" again after a prior end
attempt left it marked "completed" still yields a `status:"error"`
response. -/
theorem C4_amended_witness :
    rt_process_frame_data [] "s1" =
      Except.ok
        ({ session_id := "s1", status := "error",
           errorMsg := some ("Session " ++ "s1" ++ " not found") }, []) ∧
    rt_end_session 0
        [("s1", { c4_activeInfo with status := "completed" })] "s1" =
      Except.ok
        ({ session_id := "s1", status := "error",
           errorMsg := some
             "TrustScoreService object has no attribute finalize_session_score" },
          updateSession [("s1", { c4_activeInfo with status := "completed" })]
            "s1" (fun i => { i with status := "completed", end_time := some 0 })) :=
  ⟨((C4_amended_error_status 0 [] "s1").1 rfl).1,
    ((C4_amended_error_status 0
        [("s1", { c4_activeInfo with status := "completed" })] "s1").2.1
      { c4_activeInfo with status := "completed" } rfl).2⟩

/-- C10: for every `ProctorService.process_frame` call on a valid,
non-completed session, the returned `trust_score` lies in [0, 1]: it starts
at 1.0, has each emitted alert's `trust_score_impact` subtracted, and is
clamped with `max(0, min(1, score))` before being returned — a 0–1
fractional scale, unlike the engine's 0–100 scale. -/
theorem C10_fractional_trust_score (session : Option SessionRow) (sid : ℤ)
    (frame : Option (List ℕ)) (audio tab_active audio_sim : Bool)
    (r : PFrameResult)
    (h : ps_process_frame session sid frame audio tab_active audio_sim =
      some r) :
    r.trust_score =
      max 0 (min 1 (1 - (r.alerts.map PAlert.trust_score_impact).sum)) ∧
    0 ≤ r.trust_score ∧ r.trust_score ≤ 1 := by
  match session with
  | none => simp [ps_process_frame] at h
  | some s =>
    by_cases hc : s.is_completed
    · simp [ps_process_frame, hc] at h
    · rw [ps_process_frame.eq_def] at h
      simp only [hc, Bool.false_eq_true, if_false, Option.some.injEq] at h
      subst h
      refine ⟨?_, le_max_left 0 _, max_le (by norm_num) (min_le_left _ _)⟩
      simp only [List.map_append, List.sum_append]
      congr 1
      congr 1
      ring

/-- C10 (witness): one face with no detected eyes, inactive tab and detected
audio on a fully enabled, non-completed session: alerts worth
0.05 + 0.05 + 0.03 leave a trust score of 0.87 ∈ [0, 1]. -/
theorem C10_fractional_witness :
    0 ≤ c10_result.trust_score ∧ c10_result.trust_score ≤ 1 ∧
    c10_result.trust_score =
      max 0 (min 1 (1 - (c10_result.alerts.map PAlert.trust_score_impact).sum)) := by
  have h : ps_process_frame (some c10_row) 1 (some [0]) true false true =
      some c10_result := by
    norm_num [ps_process_frame, ps_detect_faces, ps_track_eyes, c10_row,
      c10_result, List.filter, max_def, min_def]
  obtain ⟨h1, h2, h3⟩ :=
    C10_fractional_trust_score (some c10_row) 1 (some [0]) true false true
      c10_result h
  exact ⟨h2, h3, h1⟩
